import Mathlib

/-!
Shallow embedding of `src/lib/index.js` of `ao/worldpay-lib-node`, a Node.js
client library for the Worldpay payment API.  JavaScript dynamic values are
modelled by `JsValue`; the continuation-passing style of the source is
modelled by explicit result types (`CallbackResult`, `OpOutcome`): an
operation either invokes its callback immediately (before any network
request) or issues one HTTP request and interprets the transport outcome.
The error catalog lives in `worldpayException.js`, which is not part of the
sources; it is modelled from the spec where noted.
-/

/-- JavaScript values, as far as this library inspects them: `undefined`,
`null`, booleans, numbers (modelled as rationals; no NaN/Infinity arise in
the modelled flows), strings, and objects as association lists. -/
inductive JsValue where
  | undefined
  | null
  | bool (b : Bool)
  | num (q : ℚ)
  | str (s : String)
  | obj (fields : List (String × JsValue))

/-- JavaScript truthiness: `undefined`, `null`, `false`, `0` and the empty
string are falsy; every object is truthy. -/
def JsValue.truthy : JsValue → Bool
  | .undefined => false
  | .null => false
  | .bool b => b
  | .num q => decide (q ≠ 0)
  | .str s => decide (s ≠ "")
  | .obj _ => true

/-- The JavaScript test `typeof v === 'string'`. -/
def JsValue.isString : JsValue → Bool
  | .str _ => true
  | _ => false

/-- The JavaScript strict comparison `v === null`. -/
def JsValue.isNull : JsValue → Bool
  | .null => true
  | _ => false

/-- The JavaScript strict comparison `v === false`. -/
def JsValue.isFalse : JsValue → Bool
  | .bool false => true
  | _ => false

/-- The JavaScript strict comparison `v === 200` (used on status codes). -/
def JsValue.is200 : JsValue → Bool
  | .num q => decide (q = 200)
  | _ => false

/-- JavaScript property access `v.k`.  Reading a property of a primitive
yields `undefined`.  In JavaScript reading a property of `null` or
`undefined` throws a TypeError; that case is modelled as `undefined` and is
not exercised by any modelled flow (the transport hands the callback an
object whenever no error occurred). -/
def JsValue.get : JsValue → String → JsValue
  | .obj fields, k =>
    match fields.lookup k with
    | some v => v
    | none => .undefined
  | _, _ => .undefined

/-- JavaScript string coercion, as used when an error message is built by
concatenation.  Only integral numbers occur in the modelled messages, so the
non-integral branch falls back to the rational's own printing. -/
def jsToString : JsValue → String
  | .undefined => "undefined"
  | .null => "null"
  | .bool true => "true"
  | .bool false => "false"
  | .num q => if q.den = 1 then toString q.num else toString q
  | .str s => s
  | .obj _ => "[object Object]"

/-- JavaScript `a || b`. -/
def jsOr (a b : JsValue) : JsValue :=
  if a.truthy then a else b

/-- JavaScript ToNumber coercion as needed by the relational operators used
in the source (`<=`, `>`). `none` stands for NaN.  Numeric string coercion
beyond the empty string is not modelled: no modelled flow compares a
non-empty string numerically. -/
def jsToNumber : JsValue → Option ℚ
  | .undefined => none
  | .null => some 0
  | .bool b => some (if b then 1 else 0)
  | .num q => some q
  | .str s => if s = "" then some 0 else none
  | .obj _ => none

/-- The JavaScript comparison `v <= 0` (NaN comparisons are false). -/
def jsLeqZero (v : JsValue) : Bool :=
  match jsToNumber v with
  | some q => decide (q ≤ 0)
  | none => false

/-- The JavaScript comparison `v > 0` (NaN comparisons are false). -/
def jsGreaterZero (v : JsValue) : Bool :=
  match jsToNumber v with
  | some q => decide (0 < q)
  | none => false

/-- The JavaScript test `serviceKey[0] !== 'T'`, negated: true exactly when
the credential is a string whose first character is `T`.  Indexing a
non-string or an empty string yields `undefined` in JavaScript, which is not
strictly equal to the character `'T'`. -/
def jsFirstCharIsT : JsValue → Bool
  | .str s =>
    match s.data with
    | [] => false
    | c :: _ => c = 'T'
  | _ => false

/-- Source `isFloat` (index.js lines 11 to 13): despite its name it returns
`Number.isInteger(parseFloat(number))`, i.e. it is true exactly on values
that parse to an integral number.  `parseFloat` of a number is the number
itself; of `undefined`, `null`, booleans or objects it is NaN (modelled as
`none`); numeric strings are not exercised by any claim and are modelled as
NaN. -/
def jsParseFloat : JsValue → Option ℚ
  | .num q => some q
  | _ => none

def isFloat (v : JsValue) : Bool :=
  match jsParseFloat v with
  | some q => decide (q.den = 1)
  | none => false

/-- Modelled from the spec: the catalog of error message templates from
`worldpayException.js`, which is not under the sources.  The spec (section
7) names the catalog entries `MissingCredential`, `InvalidInput`,
`SslDisabledForLiveCredential`, `UnexpectedApiResponse`, `ApiError`,
`InvalidMethod` and `UnknownNotification`; the source keys them by the short
symbolic names used here.  Looking up an unknown key in JavaScript yields
`undefined`, which string concatenation renders as the text shown in the
fallback branch. -/
def WorldpayExceptionErrors.template : String → String
  | "key" => "MissingCredential"
  | "ip" => "InvalidInput"
  | "ssl" => "SslDisabledForLiveCredential"
  | "uanv" => "UnexpectedApiResponse"
  | "apierror" => "ApiError"
  | "notificationPost" => "InvalidMethod"
  | "notificationUnknown" => "UnknownNotification"
  | _ => "undefined"

/-- Modelled from the spec: the per-field sub-templates
`WorldpayException.errors.orderInput` for order validation failures.  The
spec states the failure message concatenates the failing field names, so
each sub-template is modelled as the field's own name. -/
def WorldpayExceptionErrors.orderInput (field : String) : String := field

/-- Modelled from the spec: the sub-template
`WorldpayException.errors.refund.ordercode` used when the refund order code
is missing or not a string. -/
def WorldpayExceptionErrors.refundOrdercode : String := "orderCode"

/-- Modelled from the spec: the detail text `WorldpayException.errors.json`
attached to the `UnexpectedApiResponse` error. -/
def WorldpayExceptionErrors.json : JsValue := .str "invalid JSON response"

/-- Modelled from the spec: the property read `WorldpayException.errors.length`
performed by `checkOrderInput` (index.js line 86).  The catalog is a plain
object, not an array, so it has no `length` property and the read yields
`undefined`. -/
def WorldpayExceptionErrors.lengthProp : JsValue := .undefined

/-- Modelled from the spec: the call `WorldpayException.errors.join` on
index.js line 87 invokes `join` on the catalog object, which has no such
method; in JavaScript the call would throw a TypeError.  The branch is
unreachable (its guard compares `undefined` with 0), so the value is
modelled as `undefined`. -/
def WorldpayExceptionErrors.joined : JsValue := .undefined

/-- Modelled from the spec: the error value of section 3 — a message string
plus optional codes carried verbatim (the `WorldpayException` class of
`worldpayException.js`, not under the sources). -/
structure WorldpayException where
  message : String
  code : JsValue := .undefined
  httpStatusCode : JsValue := .undefined
  description : JsValue := .undefined
  customCode : JsValue := .undefined

/-- The client object: source constructor `Worldpay` (index.js lines 20 to
32) assigns these four fields. -/
structure Worldpay where
  serviceKey : JsValue
  timeout : JsValue
  disableSsl : Bool
  endpoint : String

/-- Source `Worldpay.onError` (index.js lines 283 to 289): prefixes a truthy
detail message with a dash, then concatenates the catalog template with the
(possibly coerced) message. -/
def Worldpay.onError (error : String) (message code httpStatusCode description customCode : JsValue) : WorldpayException :=
  let m := if message.truthy then " - " ++ jsToString message else jsToString message
  { message := WorldpayExceptionErrors.template error ++ m
    code := code
    httpStatusCode := httpStatusCode
    description := description
    customCode := customCode }

/-- The error produced by `Worldpay.onError('ssl')` at the TLS gate. -/
def sslError : WorldpayException :=
  Worldpay.onError "ssl" .undefined .undefined .undefined .undefined .undefined

/-- The error produced by the bare `Worldpay.onError('apierror')` used for a
semantically incomplete 200 body. -/
def apiErrorBare : WorldpayException :=
  Worldpay.onError "apierror" .undefined .undefined .undefined .undefined .undefined

/-- The error produced by `Worldpay.onError('uanv', errors.json, 503)`. -/
def uanvError : WorldpayException :=
  Worldpay.onError "uanv" WorldpayExceptionErrors.json (.num 503) .undefined .undefined .undefined

/-- The error produced by `Worldpay.onError('key')` in the constructor. -/
def missingCredentialError : WorldpayException :=
  Worldpay.onError "key" .undefined .undefined .undefined .undefined .undefined

/-- Source constructor (index.js lines 20 to 32): throws on a falsy service
key, otherwise initialises the client.  The throw is modelled as `.error`. -/
def Worldpay.create (serviceKey timeout : JsValue) : Except WorldpayException Worldpay :=
  if !serviceKey.truthy then
    .error missingCredentialError
  else
    .ok { serviceKey := serviceKey
          timeout := jsOr timeout (.num 10)
          disableSsl := false
          endpoint := "https://api.worldpay.com/v1/" }

/-- Source `disableSSLCheck` (index.js lines 38 to 40): stores the boolean
negation of its argument into `disableSsl`. -/
def Worldpay.disableSSLCheck (wp : Worldpay) (disable : JsValue) : Worldpay :=
  { wp with disableSsl := !disable.truthy }

/-- Source `setTimeout` (index.js lines 46 to 49). -/
def Worldpay.setTimeout (wp : Worldpay) (timeout : JsValue) : Worldpay :=
  { wp with timeout := jsOr timeout (.num 3) }

/-- The local `errors` array accumulated by `checkOrderInput` (index.js
lines 57 to 84): one catalog sub-template per failing field, pushed in the
source's fixed order. -/
def orderInputErrors (order : JsValue) : List String :=
  (if !(order.get "token").truthy then [WorldpayExceptionErrors.orderInput "token"] else []) ++
  (if !(order.get "orderDescription").truthy then [WorldpayExceptionErrors.orderInput "orderDescription"] else []) ++
  (if !(order.get "amount").truthy || jsLeqZero (order.get "amount") || isFloat (order.get "amount") then
    [WorldpayExceptionErrors.orderInput "amount"] else []) ++
  (if !(order.get "currencyCode").truthy then [WorldpayExceptionErrors.orderInput "currencyCode"] else []) ++
  (if !(order.get "name").truthy then [WorldpayExceptionErrors.orderInput "name"] else []) ++
  (if !(order.get "billingAddress").truthy then [WorldpayExceptionErrors.orderInput "billingAddress"] else [])

/-- Source `checkOrderInput` (index.js lines 56 to 91).  Returns the
exception for an invalid order and `none` for the source's `return false`.
Note the source's final guard reads `WorldpayException.errors.length` — a
property of the catalog object, not of the accumulated local `errors`
array — so the guard compares `undefined` with 0. -/
def Worldpay.checkOrderInput (order : JsValue) : Option WorldpayException :=
  if !order.truthy then
    some (Worldpay.onError "ip" .undefined .undefined .undefined .undefined .undefined)
  else
    let _errors := orderInputErrors order
    if jsGreaterZero WorldpayExceptionErrors.lengthProp then
      some (Worldpay.onError "ip" WorldpayExceptionErrors.joined .undefined .undefined .undefined .undefined)
    else
      none

/-- The options object passed to `sendRequest`.  Absent properties are
`undefined`.  Note that `createOrder` and `getStoredCardDetails` set a
property named `expectedResult`, while `sendRequest` only ever reads
`expectResponse`. -/
structure RequestOptions where
  action : String := ""
  json : JsValue := .undefined
  expectResponse : JsValue := .undefined
  expectedResult : JsValue := .undefined
  method : JsValue := .undefined

/-- The HTTP request handed to the `request` transport (index.js lines 110
to 119). -/
structure HttpRequest where
  url : String
  method : JsValue
  json : JsValue
  timeout : JsValue
  authorization : JsValue
  strictSSL : Bool

/-- The three arguments `(err, response, body)` the transport passes to the
`sendRequest` callback (index.js line 121). -/
structure TransportOutcome where
  err : JsValue := .undefined
  response : JsValue := .undefined
  body : JsValue := .undefined

/-- How a call completes: the callback is invoked either with a raw
transport error (`failJs`, source `cb(err)`), with a library exception
(`failWp`), or with a success payload (`ok`, source `cb(null, body)`). -/
inductive CallbackResult where
  | failJs (e : JsValue)
  | failWp (e : WorldpayException)
  | ok (v : JsValue)

/-- Source response interpretation: the inner `callback` of `sendRequest`
(index.js lines 121 to 156), branch for branch. -/
def interpretResponse (options : RequestOptions) (o : TransportOutcome) : CallbackResult :=
  if o.err.truthy then
    .failJs o.err
  else if options.expectResponse.truthy && (o.response.isNull || o.response.isFalse) then
    .failWp uanvError
  else if options.expectResponse.truthy && !(o.response.get "statusCode").is200 then
    .failWp uanvError
  else if !options.expectResponse.truthy && !(o.response.get "statusCode").is200 then
    .failWp (Worldpay.onError "apierror" o.response (o.response.get "statusCode") .undefined .undefined .undefined)
  else if !(o.response.get "statusCode").is200 then
    .failWp (Worldpay.onError "apierror" (o.response.get "description") (o.response.get "statusCode")
      (o.response.get "statusCode") (o.response.get "description") (o.response.get "customCode"))
  else if !options.expectResponse.truthy then
    .ok (.bool true)
  else
    .ok o.body

/-- Outcome of invoking an operation: either the callback fires immediately,
before any network request is issued, or exactly one HTTP request is issued
and the transport outcome is interpreted by the given continuation. -/
inductive OpOutcome where
  | immediate (result : CallbackResult)
  | requested (req : HttpRequest) (interp : TransportOutcome → CallbackResult)

/-- Source `sendRequest` (index.js lines 103 to 157): the TLS security gate,
then the request construction and the response interpretation. -/
def Worldpay.sendRequest (wp : Worldpay) (options : RequestOptions) : OpOutcome :=
  if wp.disableSsl && !jsFirstCharIsT wp.serviceKey then
    .immediate (.failWp sslError)
  else
    .requested
      { url := wp.endpoint ++ options.action
        method := jsOr options.method (.str "POST")
        json := jsOr options.json (.bool true)
        timeout := wp.timeout
        authorization := wp.serviceKey
        strictSSL := !wp.disableSsl }
      (interpretResponse options)

/-- Post-composition of an operation's own callback wrapper over the result
of `sendRequest` (the wrappers forward any error unchanged, matching the
source's `if (err) return cb(err)`). -/
def OpOutcome.mapResult (f : CallbackResult → CallbackResult) : OpOutcome → OpOutcome
  | .immediate r => .immediate (f r)
  | .requested req k => .requested req (fun o => f (k o))

/-- The `defaults` object of `createOrder` (index.js lines 174 to 178). -/
def orderDefaults : JsValue :=
  .obj [("orderType", .str "ECOM"), ("customerIdentifiers", .null), ("billingAddress", .null)]

/-- Field access on `_.merge(defaults, order)`: lodash merge lets a defined
caller field override the default and keeps the default where the caller
field is `undefined`.  (Deep merging is unobservable here: every default
value is a primitive or `null`.) -/
def mergedGet (order : JsValue) (k : String) : JsValue :=
  match order.get k with
  | .undefined => orderDefaults.get k
  | v => v

/-- The wire payload `json` built by `createOrder` (index.js lines 182 to
192). -/
def createOrderJson (order : JsValue) : JsValue :=
  .obj [("token", mergedGet order "token"),
        ("orderDescription", mergedGet order "orderDescription"),
        ("amount", mergedGet order "amount"),
        ("currencyCode", mergedGet order "currencyCode"),
        ("name", mergedGet order "name"),
        ("orderType", mergedGet order "orderType"),
        ("billingAddress", mergedGet order "billingAddress"),
        ("customerOrderCode", mergedGet order "customerOrderCode"),
        ("customerIdentifiers", mergedGet order "customerIdentifiers")]

/-- The callback wrapper of `createOrder` (index.js lines 195 to 206):
forwards errors, requires a truthy `orderCode` on the success payload. -/
def createOrderWrap : CallbackResult → CallbackResult
  | .failJs e => .failJs e
  | .failWp e => .failWp e
  | .ok response =>
    if !(response.get "orderCode").truthy then .failWp apiErrorBare
    else .ok response

/-- Source `createOrder` (index.js lines 166 to 207). -/
def Worldpay.createOrder (wp : Worldpay) (order : JsValue) : OpOutcome :=
  let order := jsOr order (.obj [])
  match Worldpay.checkOrderInput order with
  | some e => .immediate (.failWp e)
  | none =>
    (wp.sendRequest { action := "orders", json := createOrderJson order, expectedResult := .bool true }).mapResult
      createOrderWrap

/-- Source `refundOrder` (index.js lines 214 to 220). -/
def Worldpay.refundOrder (wp : Worldpay) (orderCode : JsValue) : OpOutcome :=
  if !orderCode.truthy || !orderCode.isString then
    .immediate (.failWp (Worldpay.onError "ip" (.str WorldpayExceptionErrors.refundOrdercode) .undefined .undefined .undefined .undefined))
  else
    wp.sendRequest { action := "orders/" ++ jsToString orderCode ++ "/refund" }

/-- The callback wrapper of `getStoredCardDetails` (index.js lines 240 to
250): forwards errors, requires and projects out `paymentMethod`. -/
def getStoredCardWrap : CallbackResult → CallbackResult
  | .failJs e => .failJs e
  | .failWp e => .failWp e
  | .ok response =>
    if !(response.get "paymentMethod").truthy then .failWp apiErrorBare
    else .ok (response.get "paymentMethod")

/-- Source `getStoredCardDetails` (index.js lines 228 to 251). -/
def Worldpay.getStoredCardDetails (wp : Worldpay) (token : JsValue) : OpOutcome :=
  if !token.truthy || !token.isString then
    .immediate (.failWp (Worldpay.onError "ip" (.str (WorldpayExceptionErrors.orderInput "token")) .undefined .undefined .undefined .undefined))
  else
    (wp.sendRequest
      { action := "tokens/" ++ jsToString token
        json := .bool false
        expectedResult := .bool true
        method := .str "GET" }).mapResult
      getStoredCardWrap

/-- The inbound HTTP request consumed by the webhook handler: only `method`
and `body` are read (index.js lines 261 to 271). -/
structure WebhookRequest where
  method : String
  body : JsValue

/-- How the webhook handler completes: the completion callback is invoked
with an error (`fail e`, source `cb(error)`) or with the notification body
(`received b`, source `cb(null, req.body)`). -/
inductive WebhookResult where
  | fail (e : WorldpayException)
  | received (body : JsValue)

/-- Source `processWebhook` (index.js lines 260 to 272): the factory takes a
first parameter named `token` that the handler never uses, and the
completion callback; the returned handler's behaviour on a request is the
value computed here. -/
def Worldpay.processWebhook (token : JsValue) (req : WebhookRequest) : WebhookResult :=
  if req.method != "POST" then
    .fail (Worldpay.onError "notificationPost" .undefined .undefined .undefined .undefined .undefined)
  else if !req.body.truthy then
    .fail (Worldpay.onError "notificationUnknown" .undefined .undefined .undefined .undefined .undefined)
  else
    .received req.body

/-- Projection: did the operation issue a network request? -/
def OpOutcome.isRequested : OpOutcome → Bool
  | .requested _ _ => true
  | .immediate _ => false

/-- Projection: the URL of the issued request, when one was issued. -/
def OpOutcome.requestUrl : OpOutcome → Option String
  | .requested r _ => some r.url
  | .immediate _ => none

/-- Projection: the TLS-verification setting of the issued request. -/
def OpOutcome.requestStrictSsl : OpOutcome → Option Bool
  | .requested r _ => some r.strictSSL
  | .immediate _ => none

/-- Feed a transport outcome to the operation's interpretation, when a
request was issued. -/
def OpOutcome.interpret (o : OpOutcome) (t : TransportOutcome) : Option CallbackResult :=
  match o with
  | .requested _ k => some (k t)
  | .immediate _ => none

/-- A client holding a live (non-test) credential, as the constructor builds
it. -/
def liveClient : Worldpay :=
  { serviceKey := .str "LIVEKEY"
    timeout := .num 10
    disableSsl := false
    endpoint := "https://api.worldpay.com/v1/" }

/-- A client holding a test credential (first character `T`). -/
def testClient : Worldpay :=
  { serviceKey := .str "T_SVC_KEY"
    timeout := .num 10
    disableSsl := false
    endpoint := "https://api.worldpay.com/v1/" }

/-- An order with all six required fields present and the given amount. -/
def orderWithAmount (a : JsValue) : JsValue :=
  .obj [("token", .str "tok"),
        ("orderDescription", .str "an order"),
        ("amount", a),
        ("currencyCode", .str "GBP"),
        ("name", .str "A Person"),
        ("billingAddress", .obj [("postalCode", .str "AB1 2CD")])]

/-- A fully valid order input with the whole-number amount 100. -/
def sampleOrder : JsValue := orderWithAmount (.num 100)

/-- The rational 10.5, built without division so that it reduces in the
kernel. -/
def tenPointFive : ℚ := ⟨21, 2, by norm_num, by norm_num⟩

/-- A transport response object with HTTP status 200. -/
def status200 : JsValue := .obj [("statusCode", .num 200)]

/-- A successful transport outcome: no error, status 200, the given body. -/
def outcome200 (body : JsValue) : TransportOutcome :=
  { err := .undefined, response := status200, body := body }

/-- Helper: `jsOr` against an object default is always truthy, so the
`order = order or empty-object` line of `createOrder` always yields a truthy
order. -/
theorem jsOr_default_obj_truthy (v : JsValue) (d : List (String × JsValue)) :
    (jsOr v (.obj d)).truthy = true := by
  unfold jsOr
  split
  next h => exact h
  next => rfl

/-- Helper: `checkOrderInput` accepts every truthy order, because its final
guard reads the catalog object's nonexistent `length` property (which is
`undefined`, and `undefined` compared with 0 is false). -/
theorem checkOrderInput_never_rejects (order : JsValue) (h : order.truthy = true) :
    Worldpay.checkOrderInput order = none := by
  simp [Worldpay.checkOrderInput, h, jsGreaterZero, WorldpayExceptionErrors.lengthProp, jsToNumber]

/-- Helper: when the internal TLS flag is set and the credential does not
start with `T`, `sendRequest` fails with the ssl error before any request. -/
theorem sendRequest_gate (wp : Worldpay) (opts : RequestOptions)
    (hd : wp.disableSsl = true) (hk : jsFirstCharIsT wp.serviceKey = false) :
    wp.sendRequest opts = .immediate (.failWp sslError) := by
  simp [Worldpay.sendRequest, hd, hk]

/-- Helper: when the credential starts with `T`, `sendRequest` always issues
its request. -/
theorem sendRequest_requested (wp : Worldpay) (opts : RequestOptions)
    (hk : jsFirstCharIsT wp.serviceKey = true) :
    (wp.sendRequest opts).isRequested = true := by
  simp [Worldpay.sendRequest, hk, OpOutcome.isRequested]

/-- Helper: wrapping the callback does not change whether a request was
issued. -/
theorem mapResult_isRequested (f : CallbackResult → CallbackResult) (o : OpOutcome) :
    (o.mapResult f).isRequested = o.isRequested := by
  cases o <;> rfl

/-- C1 counterexample: on a client with a live credential, calling the
public setter `disableSSLCheck(true)` does NOT make operations fail with
`SslDisabledForLiveCredential`: the setter stores the negation of its
argument, so the internal flag stays false, `refundOrder` issues its network
request, and the request is sent with TLS verification still enabled
(`strictSSL = true`). -/
theorem disableSslTrue_does_not_block_live_client :
    ((liveClient.disableSSLCheck (.bool true)).refundOrder (.str "oc1")).isRequested = true ∧
    ((liveClient.disableSSLCheck (.bool true)).refundOrder (.str "oc1")).requestStrictSsl = some true := by
  exact ⟨rfl, rfl⟩

/-- C1 (amended): because `disableSSLCheck` stores the negation of its
argument, TLS verification is disabled by calling the setter with `false`.
In that configuration a client whose credential does not start with `T` has
every operation (`createOrder`, `refundOrder`, `getStoredCardDetails`) fail
immediately with the `SslDisabledForLiveCredential` error, before any
network request is issued; a client whose credential starts with `T` has the
same configuration let all three requests proceed. -/
theorem tlsGate_blocks_live_and_passes_test (wpLive wpT : Worldpay) (order oc tok : JsValue)
    (hLive : jsFirstCharIsT wpLive.serviceKey = false)
    (hTest : jsFirstCharIsT wpT.serviceKey = true)
    (hoc : oc.truthy = true) (hocs : oc.isString = true)
    (htok : tok.truthy = true) (htoks : tok.isString = true) :
    ((wpLive.disableSSLCheck (.bool false)).createOrder order = .immediate (.failWp sslError) ∧
     (wpLive.disableSSLCheck (.bool false)).refundOrder oc = .immediate (.failWp sslError) ∧
     (wpLive.disableSSLCheck (.bool false)).getStoredCardDetails tok = .immediate (.failWp sslError)) ∧
    (((wpT.disableSSLCheck (.bool false)).createOrder order).isRequested = true ∧
     ((wpT.disableSSLCheck (.bool false)).refundOrder oc).isRequested = true ∧
     ((wpT.disableSSLCheck (.bool false)).getStoredCardDetails tok).isRequested = true) := by
  have hco : Worldpay.checkOrderInput (jsOr order (.obj [])) = none :=
    checkOrderInput_never_rejects _ (jsOr_default_obj_truthy order [])
  have hdisL : (wpLive.disableSSLCheck (.bool false)).disableSsl = true := rfl
  have hkeyL : jsFirstCharIsT (wpLive.disableSSLCheck (.bool false)).serviceKey = false := hLive
  have hkeyT : jsFirstCharIsT (wpT.disableSSLCheck (.bool false)).serviceKey = true := hTest
  refine ⟨⟨?_, ?_, ?_⟩, ?_, ?_, ?_⟩
  · simp [Worldpay.createOrder, hco]
    rw [sendRequest_gate _ _ hdisL hkeyL]
    rfl
  · simp [Worldpay.refundOrder, hoc, hocs]
    rw [sendRequest_gate _ _ hdisL hkeyL]
  · simp [Worldpay.getStoredCardDetails, htok, htoks]
    rw [sendRequest_gate _ _ hdisL hkeyL]
    rfl
  · rw [Worldpay.createOrder]
    simp only [hco]
    rw [mapResult_isRequested]
    exact sendRequest_requested _ _ hkeyT
  · simp [Worldpay.refundOrder, hoc, hocs]
    exact sendRequest_requested _ _ hkeyT
  · simp [Worldpay.getStoredCardDetails, htok, htoks, mapResult_isRequested]
    exact sendRequest_requested _ _ hkeyT

/-- C1 witness: the amended TLS gate theorem instantiated on the concrete
live and test clients. -/
theorem tlsGate_witness :
    (liveClient.disableSSLCheck (.bool false)).refundOrder (.str "oc1") = .immediate (.failWp sslError) ∧
    ((testClient.disableSSLCheck (.bool false)).refundOrder (.str "oc1")).isRequested = true := by
  have h := tlsGate_blocks_live_and_passes_test liveClient testClient sampleOrder (.str "oc1")
    (.str "tok") rfl rfl rfl rfl rfl rfl
  exact ⟨h.1.2.1, h.2.2.1⟩

/-- C2: contrary to the claim, `createOrder` can never succeed.  The options
object sets `expectedResult` while `sendRequest` reads `expectResponse`, so
on HTTP 200 the body is replaced by the boolean `true`; the subsequent
`orderCode` check then always fails, and a 200 response whose body does
contain `orderCode` still yields the bare `ApiError`. -/
theorem createOrder_fails_even_with_orderCode :
    (testClient.createOrder sampleOrder).interpret (outcome200 (.obj [("orderCode", .str "A100")])) =
      some (.failWp apiErrorBare) := by
  exact rfl

/-- C3: the order validation gate is inert.  For the empty order object,
which is missing all six required fields, `checkOrderInput` still returns
`false` (modelled as `none`): its final guard reads the error catalog's
nonexistent `length` property instead of the accumulated `errors` array.
The second conjunct shows the source did accumulate all six field errors, in
the fixed order, into the local array it then ignores. -/
theorem checkOrderInput_accepts_empty_order :
    Worldpay.checkOrderInput (.obj []) = none ∧
    orderInputErrors (.obj []) =
      ["token", "orderDescription", "amount", "currencyCode", "name", "billingAddress"] := by
  exact ⟨rfl, rfl⟩

/-- C4: amount validation does not behave as claimed.  Orders with amounts
0, -5 and 10.5 are all accepted by `checkOrderInput` (the inert guard of C3),
and even the field-level amount test is inverted: `isFloat` is
`Number.isInteger(parseFloat(x))`, so the valid whole amount 100 is flagged
as a failing field while the fractional 10.5 passes the field checks. -/
theorem amount_validation_is_broken :
    Worldpay.checkOrderInput (orderWithAmount (.num 0)) = none ∧
    Worldpay.checkOrderInput (orderWithAmount (.num (-5))) = none ∧
    Worldpay.checkOrderInput (orderWithAmount (.num tenPointFive)) = none ∧
    isFloat (.num 100) = true ∧
    orderInputErrors (orderWithAmount (.num 100)) = [WorldpayExceptionErrors.orderInput "amount"] ∧
    orderInputErrors (orderWithAmount (.num tenPointFive)) = [] := by
  exact ⟨rfl, rfl, rfl, rfl, rfl, rfl⟩

/-- C5: `getStoredCardDetails` validates its token as claimed, but on a 200
response whose body contains `paymentMethod` it does not return the
sub-object: like `createOrder` it sets `expectedResult` instead of
`expectResponse`, the 200 body is replaced by `true`, and the
`paymentMethod` check always fails with the bare `ApiError`. -/
theorem getStoredCardDetails_fails_even_with_paymentMethod :
    (testClient.getStoredCardDetails (.str "tok")).interpret
        (outcome200 (.obj [("paymentMethod", .obj [("id", .str "abc")])])) =
      some (.failWp apiErrorBare) ∧
    liveClient.getStoredCardDetails (.str "") =
      .immediate (.failWp (Worldpay.onError "ip" (.str (WorldpayExceptionErrors.orderInput "token"))
        .undefined .undefined .undefined .undefined)) := by
  exact ⟨rfl, rfl⟩

/-- C6: response interpretation in `sendRequest`.  A transport error is
propagated unchanged.  When a structured response is expected and the
response is absent (null or false) or its status is not 200, the result is
the `UnexpectedApiResponse` error with fixed code 503, regardless of the
body.  When no structured response is expected and the status is not 200,
the result is the `ApiError` built from the raw response object and its
status code. -/
theorem sendRequest_interpretation (options : RequestOptions) (o : TransportOutcome) :
    (o.err.truthy = true → interpretResponse options o = .failJs o.err) ∧
    (o.err.truthy = false → options.expectResponse.truthy = true →
      (o.response.isNull = true ∨ o.response.isFalse = true ∨
        (o.response.get "statusCode").is200 = false) →
      interpretResponse options o = .failWp uanvError ∧ uanvError.code = .num 503) ∧
    (o.err.truthy = false → options.expectResponse.truthy = false →
      (o.response.get "statusCode").is200 = false →
      interpretResponse options o =
        .failWp (Worldpay.onError "apierror" o.response (o.response.get "statusCode")
          .undefined .undefined .undefined)) := by
  refine ⟨?_, ?_, ?_⟩
  · intro h
    simp [interpretResponse, h]
  · intro h1 h2 h3
    refine ⟨?_, rfl⟩
    rcases h3 with h | h | h
    · simp [interpretResponse, h1, h2, h]
    · simp [interpretResponse, h1, h2, h]
    · cases hn : o.response.isNull <;> cases hf : o.response.isFalse <;>
        simp [interpretResponse, h1, h2, h, hn, hf]
  · intro h1 h2 h3
    simp [interpretResponse, h1, h2, h3]

/-- C6 witness: the three interpretation branches at concrete inputs: a
transport error is propagated; an expected-response call with a null
response fails with the 503 `UnexpectedApiResponse`; an
unexpected-response call with a 404 status fails with the `ApiError` built
from the raw response and its status code. -/
theorem sendRequest_interpretation_witness :
    interpretResponse {} { err := .str "boom", response := .undefined, body := .undefined } =
      .failJs (.str "boom") ∧
    interpretResponse { expectResponse := .bool true }
        { err := .undefined, response := .null, body := .obj [] } = .failWp uanvError ∧
    interpretResponse {} { err := .undefined, response := .obj [("statusCode", .num 404)], body := .obj [] } =
      .failWp (Worldpay.onError "apierror" (.obj [("statusCode", .num 404)]) (.num 404)
        .undefined .undefined .undefined) := by
  refine ⟨?_, ?_, ?_⟩
  · exact (sendRequest_interpretation {} { err := .str "boom", response := .undefined, body := .undefined }).1 rfl
  · exact ((sendRequest_interpretation { expectResponse := .bool true }
      { err := .undefined, response := .null, body := .obj [] }).2.1 rfl rfl (Or.inl rfl)).1
  · exact (sendRequest_interpretation {}
      { err := .undefined, response := .obj [("statusCode", .num 404)], body := .obj [] }).2.2 rfl rfl rfl

/-- C7: `refundOrder` rejects an order code that is falsy or not a string
with the `InvalidInput` refund error before any request is issued; for a
non-empty string order code (on a client whose TLS gate is off, the state
the constructor establishes) it issues the request to
`orders/{orderCode}/refund`, and on any transport success with HTTP status
200 the callback receives the boolean `true`. -/
theorem refundOrder_contract (wp : Worldpay) (oc : JsValue) :
    ((oc.truthy = false ∨ oc.isString = false) →
      wp.refundOrder oc =
        .immediate (.failWp (Worldpay.onError "ip" (.str WorldpayExceptionErrors.refundOrdercode)
          .undefined .undefined .undefined .undefined))) ∧
    (∀ s : String, oc = .str s → s ≠ "" → wp.disableSsl = false →
      (wp.refundOrder oc).requestUrl = some (wp.endpoint ++ ("orders/" ++ s ++ "/refund")) ∧
      ∀ resp body : JsValue, (resp.get "statusCode").is200 = true →
        (wp.refundOrder oc).interpret { err := .undefined, response := resp, body := body } =
          some (.ok (.bool true))) := by
  constructor
  · intro h
    rcases h with h | h <;> simp [Worldpay.refundOrder, h]
  · intro s hs hne hssl
    subst hs
    constructor
    · simp [Worldpay.refundOrder, JsValue.truthy, JsValue.isString, hne, Worldpay.sendRequest,
        hssl, OpOutcome.requestUrl, jsToString]
    · intro resp body h200
      simp [Worldpay.refundOrder, JsValue.truthy, JsValue.isString, hne, Worldpay.sendRequest,
        hssl, OpOutcome.interpret, interpretResponse, JsValue.truthy, h200]

/-- C7 witness: `refundOrder` on the live client rejects a numeric order
code immediately, and for the order code string oc1 issues the request to
the refund path and yields `true` on a 200 response. -/
theorem refundOrder_witness :
    liveClient.refundOrder (.num 7) =
      .immediate (.failWp (Worldpay.onError "ip" (.str WorldpayExceptionErrors.refundOrdercode)
        .undefined .undefined .undefined .undefined)) ∧
    (liveClient.refundOrder (.str "oc1")).requestUrl =
      some (liveClient.endpoint ++ ("orders/" ++ "oc1" ++ "/refund")) ∧
    (liveClient.refundOrder (.str "oc1")).interpret
        { err := .undefined, response := status200, body := .obj [] } = some (.ok (.bool true)) := by
  refine ⟨?_, ?_, ?_⟩
  · exact (refundOrder_contract liveClient (.num 7)).1 (Or.inr rfl)
  · exact ((refundOrder_contract liveClient (.str "oc1")).2 "oc1" rfl (by decide) rfl).1
  · exact ((refundOrder_contract liveClient (.str "oc1")).2 "oc1" rfl (by decide) rfl).2
      status200 (.obj []) rfl

/-- C8: construction with a falsy credential (empty string, null,
undefined, all falsy values) fails with the `MissingCredential` error and no
client is produced; with a non-empty string credential it succeeds, with the
timeout set to the given value when that value is truthy and 10 otherwise,
TLS checking enabled and the fixed base endpoint. -/
theorem create_contract (cred t : JsValue) :
    (cred.truthy = false → Worldpay.create cred t = .error missingCredentialError) ∧
    (∀ s : String, cred = .str s → s ≠ "" →
      Worldpay.create cred t =
        .ok { serviceKey := cred
              timeout := if t.truthy then t else .num 10
              disableSsl := false
              endpoint := "https://api.worldpay.com/v1/" }) := by
  constructor
  · intro h
    simp [Worldpay.create, h]
  · intro s hs hne
    subst hs
    simp [Worldpay.create, JsValue.truthy, hne, jsOr]

/-- C8 witness: the empty-string credential is rejected; the credential svc
with timeout 5 yields a client with timeout 5. -/
theorem create_witness :
    Worldpay.create (.str "") (.num 5) = .error missingCredentialError ∧
    Worldpay.create (.str "svc") (.num 5) =
      .ok { serviceKey := .str "svc"
            timeout := if (JsValue.num 5).truthy then .num 5 else .num 10
            disableSsl := false
            endpoint := "https://api.worldpay.com/v1/" } := by
  exact ⟨(create_contract (.str "") (.num 5)).1 rfl,
    (create_contract (.str "svc") (.num 5)).2 "svc" rfl (by decide)⟩

/-- C9: the webhook handler rejects every non-POST request with the
`InvalidMethod` error, rejects a POST whose body is falsy with the
`UnknownNotification` error, and for a POST with a truthy body hands the
body unchanged to the completion callback. -/
theorem processWebhook_contract (token : JsValue) (req : WebhookRequest) :
    (req.method ≠ "POST" → Worldpay.processWebhook token req =
      .fail (Worldpay.onError "notificationPost" .undefined .undefined .undefined .undefined .undefined)) ∧
    (req.method = "POST" → req.body.truthy = false → Worldpay.processWebhook token req =
      .fail (Worldpay.onError "notificationUnknown" .undefined .undefined .undefined .undefined .undefined)) ∧
    (req.method = "POST" → req.body.truthy = true →
      Worldpay.processWebhook token req = .received req.body) := by
  refine ⟨?_, ?_, ?_⟩
  · intro h
    simp [Worldpay.processWebhook, h]
  · intro h hb
    simp [Worldpay.processWebhook, h, hb]
  · intro h hb
    simp [Worldpay.processWebhook, h, hb]

/-- C9 witness: a GET request is rejected with `InvalidMethod`; a POST with
an empty body is rejected with `UnknownNotification`; a POST with body
containing foo = 1 invokes the callback with that body. -/
theorem processWebhook_witness :
    Worldpay.processWebhook .undefined { method := "GET", body := .obj [("foo", .num 1)] } =
      .fail (Worldpay.onError "notificationPost" .undefined .undefined .undefined .undefined .undefined) ∧
    Worldpay.processWebhook .undefined { method := "POST", body := .str "" } =
      .fail (Worldpay.onError "notificationUnknown" .undefined .undefined .undefined .undefined .undefined) ∧
    Worldpay.processWebhook .undefined { method := "POST", body := .obj [("foo", .num 1)] } =
      .received (.obj [("foo", .num 1)]) := by
  refine ⟨?_, ?_, ?_⟩
  · exact (processWebhook_contract .undefined { method := "GET", body := .obj [("foo", .num 1)] }).1
      (by decide)
  · exact (processWebhook_contract .undefined { method := "POST", body := .str "" }).2.1 rfl rfl
  · exact (processWebhook_contract .undefined { method := "POST", body := .obj [("foo", .num 1)] }).2.2
      rfl rfl

/-- C10: an error constructed without a detail message gets the text
undefined appended to its catalog template, because the absent message is
concatenated rather than omitted.  This is exhibited for the three sites
named by the claim: `MissingCredential` from the constructor,
`SslDisabledForLiveCredential` from the TLS gate, and the bare `ApiError`
for a semantically incomplete 200 body in `createOrder`. -/
theorem bare_errors_append_undefined :
    missingCredentialError.message = WorldpayExceptionErrors.template "key" ++ "undefined" ∧
    sslError.message = WorldpayExceptionErrors.template "ssl" ++ "undefined" ∧
    apiErrorBare.message = WorldpayExceptionErrors.template "apierror" ++ "undefined" ∧
    Worldpay.create (.str "") .undefined = .error missingCredentialError ∧
    (liveClient.disableSSLCheck (.bool false)).refundOrder (.str "oc2") =
      .immediate (.failWp sslError) ∧
    (testClient.createOrder sampleOrder).interpret (outcome200 (.obj [])) =
      some (.failWp apiErrorBare) := by
  exact ⟨rfl, rfl, rfl, rfl, rfl, rfl⟩
